import Mathlib

/-!
Verification of the RAG sample application (src/samples/rag.py) against its
specification. The program is a linear pipeline: load a PDF from a fixed
path, split pages into overlapping chunks, embed the chunks into an
in-memory FAISS vector store, and answer questions by retrieving the k = 3
nearest chunks and invoking a local LLM.

External effects (the filesystem, the PyPDF loader, the Ollama embedding
service, FAISS similarity ranking, and the Ollama generation model) are
modelled as oracle fields of `IngestWorld` / `QueryWorld`; the Python code
of the repository itself is translated function by function.
-/

namespace RAG

/-- Configuration constant `PDF_PATH` from rag.py. -/
def PDF_PATH : String := "document.pdf"

/-- Configuration constant `CHUNK_SIZE` from rag.py. -/
def CHUNK_SIZE : Nat := 256

/-- Configuration constant `CHUNK_OVERLAP` from rag.py. -/
def CHUNK_OVERLAP : Nat := 32

/-- Configuration constant `EMBEDDING_MODEL` from rag.py. -/
def EMBEDDING_MODEL : String := "nomic-embed-text"

/-- Distance between the start offsets of adjacent chunks within one page:
each chunk is bounded by `CHUNK_SIZE` characters and shares `CHUNK_OVERLAP`
characters with its successor. -/
def stride : Nat := CHUNK_SIZE - CHUNK_OVERLAP

/-- Modelled from the spec: the text splitter itself
(`RecursiveCharacterTextSplitter` from langchain) is an external library whose
code is not part of this repository. The spec describes it as splitting page
text "into chunks bounded by `chunk_size` characters with `chunk_overlap`
characters shared between adjacent chunks", with chunk start offsets advancing
by `chunk_size - chunk_overlap` and "ceiling-bounded at document end". These
are the chunk start offsets for a page of length `len`. -/
def chunkStarts (len : Nat) : List Nat :=
  (List.range ((len + (stride - 1)) / stride)).map (fun i => i * stride)

/-- Modelled from the spec: splitting one page of text into overlapping
chunks, each chunk the `CHUNK_SIZE`-bounded window at its start offset. -/
def splitPage (text : List Char) : List (List Char) :=
  (chunkStarts text.length).map (fun o => (text.drop o).take CHUNK_SIZE)

/-- A document chunk: a text span plus its source page number
(the splitter copies each page's metadata onto the chunks made from it). -/
structure Chunk where
  text : List Char
  page : Nat
deriving Repr, DecidableEq

/-- Modelled from the spec: `split_documents` applies the splitter to each
page-level document; every chunk carries its source page's number. -/
def splitDocuments (pages : List (List Char)) : List Chunk :=
  (pages.enum.map (fun p => (splitPage p.2).map (fun t => Chunk.mk t p.1))).flatten

/-- The in-memory vector store (FAISS): it owns the chunks it was built from,
and answers a similarity query with chunks ranked by embedding distance.
The ranking function itself comes from the external embedding model. -/
structure VectorStore where
  chunks : List Chunk
  rank : String → List Chunk

/-- Outcomes of the external effects an ingest touches: whether a file exists
at `PDF_PATH`, what the PDF loader returns (page texts, or an exception),
whether the embedding call raises, and the similarity ranking the built
index will use (fixed, since the embedding model is the constant
`EMBEDDING_MODEL`). -/
structure IngestWorld where
  pdfExists : Bool
  pages : Except String (List (List Char))
  embedErr : Option String
  similarity : List Chunk → String → List Chunk

/-- `load_and_split_pdf`: load the PDF into page documents and split them
into chunks; returns the chunks and the number of pages, or propagates the
loader's exception. -/
def load_and_split_pdf (w : IngestWorld) : Except String (List Chunk × Nat) :=
  match w.pages with
  | .error e => .error e
  | .ok pgs => .ok (splitDocuments pgs, pgs.length)

/-- `create_vectorstore`: embed all chunks (which may raise) and build the
FAISS store over them. -/
def create_vectorstore (w : IngestWorld) (chunks : List Chunk) :
    Except String VectorStore :=
  match w.embedErr with
  | some e => .error e
  | none => .ok (VectorStore.mk chunks (w.similarity chunks))

/-- `ingest_pdf`: check the file exists, then load, split and embed inside a
try/except; returns `(success, message, vectorstore-or-None)`. -/
def ingest_pdf (w : IngestWorld) : Bool × String × Option VectorStore :=
  if w.pdfExists = false then
    (false, "❌ " ++ PDF_PATH ++ " not found. Please upload or download a PDF first.",
      none)
  else
    match load_and_split_pdf w with
    | .error e => (false, "❌ Error: " ++ e, none)
    | .ok (chunks, _numPages) =>
      match create_vectorstore w chunks with
      | .error e => (false, "❌ Error: " ++ e, none)
      | .ok vectorstore => (true, "✅ PDF ingested successfully!", some vectorstore)

/-- The retriever returned by `vectorstore.as_retriever(search_kwargs=...)`:
it remembers the store and the fixed `k`. -/
structure Retriever where
  vs : VectorStore
  k : Nat

/-- Invoking the retriever on a question: the `k` nearest chunks by the
store's similarity ranking. -/
def Retriever.invoke (r : Retriever) (q : String) : List Chunk :=
  (r.vs.rank q).take r.k

/-- The bundle `initialize_qa_chain` returns: the LCEL chain (here represented
by the data it closes over: the retriever and the LLM's model name) and the
retriever itself. -/
structure QABundle where
  retriever : Retriever
  modelName : String

/-- `_format_docs`: join the retrieved chunks' page contents with blank
lines. -/
def format_docs (docs : List Chunk) : String :=
  String.intercalate "\n\n" (docs.map (fun d => String.mk d.text))

/-- The system prompt string of `initialize_qa_chain`. -/
def system_prompt : String :=
  "Use the following pieces of context to answer the question at the end. " ++
  "If you don't know the answer, just say that you don't know, don't try to make up an answer. " ++
  "The user will probably ask questions about a specific workstation product from HP." ++
  "Context will be provided from the user's manual. If they ask about anything else, " ++
  "politely inform them that you can only answer questions related to this specific HP workstation."

/-- The human message of the chat prompt template, with the context and
question substituted in. -/
def human_message (context question : String) : String :=
  "Context:\n" ++ context ++ "\n\nQuestion: " ++ question ++ "\n\nAnswer:"

/-- `initialize_qa_chain`: build the retriever with `k = 3` and the chain
around the LLM named by `model_name` (default `"llama3.2"`). -/
def initialize_qa_chain (vectorstore : VectorStore) (model_name : String) : QABundle :=
  QABundle.mk (Retriever.mk vectorstore 3) model_name

/-- Outcome of the external generation call: the Ollama LLM, given a model
name and the rendered prompt, returns an answer string or raises. -/
structure QueryWorld where
  generate : String → String → Except String String

/-- The documents the chain's retriever step feeds into the prompt as
context within one invocation. -/
def QABundle.contextDocs (b : QABundle) (q : String) : List Chunk :=
  b.retriever.invoke q

/-- `chain.invoke(question)`: retrieve context, format it, render the prompt
and call the generation model once. -/
def QABundle.invokeChain (b : QABundle) (w : QueryWorld) (q : String) :
    Except String String :=
  let context := format_docs (b.contextDocs q)
  w.generate b.modelName (system_prompt ++ human_message context q)

/-- The per-session state Streamlit keeps: `st.session_state.vectorstore`,
`st.session_state.qa_chain`, and the sidebar model-name text field. -/
structure SessionState where
  vectorstore : Option VectorStore
  qa_chain : Option QABundle
  modelName : String

/-- What one question-submission renders: an answer plus the source chunks
shown in the expander, an error message plus the remediation hint, or the
warning shown while no index is loaded. -/
inductive QueryOutput where
  | answered (answer : String) (sources : List Chunk)
  | failed (errMsg : String) (hint : String)
  | notReady
deriving Repr

/-- The question-form handler: if a chain is stored, invoke it inside a
try/except; on success display the answer and then the retriever's documents
as sources; on an exception display the error and a hint. It never writes to
the session state, so the state is returned unchanged. -/
def queryHandler (s : SessionState) (q : String) (w : QueryWorld) :
    SessionState × QueryOutput :=
  match s.qa_chain with
  | none => (s, QueryOutput.notReady)
  | some b =>
    match b.invokeChain w q with
    | .error e =>
      (s, QueryOutput.failed ("Error: " ++ e) "Make sure Ollama is running: `ollama serve`")
    | .ok answer => (s, QueryOutput.answered answer (b.retriever.invoke q))

/-- The user actions a session serializes: editing the model-name field,
clicking "Process PDF", and submitting a question. The world argument fixes
the external outcomes of the action. -/
inductive Event where
  | setModelName (m : String)
  | processPDF (w : IngestWorld)
  | ask (q : String) (w : QueryWorld)

/-- One user action on the session state. The "Process PDF" handler stores
the returned vectorstore only on success, and then (the store being
non-None, hence truthy) rebuilds the qa_chain from it with the current
model-name field; on failure it only displays the message. -/
def step (s : SessionState) : Event → SessionState
  | .setModelName m => { s with modelName := m }
  | .processPDF w =>
    let (success, _message, vectorstore) := ingest_pdf w
    if success then
      let s1 := { s with vectorstore := vectorstore }
      match s1.vectorstore with
      | some v => { s1 with qa_chain := some (initialize_qa_chain v s.modelName) }
      | none => s1
    else s
  | .ask q w => (queryHandler s q w).1

/-- The session state at session start: both `st.session_state` slots are
None and the text field holds its default value. -/
def initState : SessionState :=
  SessionState.mk none none "llama3.2"

/-- The session states reachable from the initial state by user actions. -/
inductive Reachable : SessionState → Prop where
  | init : Reachable initState
  | next (s : SessionState) (e : Event) : Reachable s → Reachable (step s e)

/-- A world where no file exists at `PDF_PATH`. -/
def w_missing : IngestWorld :=
  IngestWorld.mk false (Except.ok []) none (fun _ _ => [])

/-- A world where the file exists but the PDF loader raises. -/
def w_loadfail : IngestWorld :=
  IngestWorld.mk true (Except.error "boom") none (fun _ _ => [])

/-- A world where ingest succeeds (an empty, zero-page PDF). -/
def w_ok : IngestWorld :=
  IngestWorld.mk true (Except.ok []) none (fun _ _ => [])

/-- The empty vector store `w_ok`'s ingest builds. -/
def vs0 : VectorStore :=
  VectorStore.mk [] (fun _ => [])

/-- The session state after one successful ingest from the initial state. -/
def s0 : SessionState :=
  step initState (Event.processPDF w_ok)

/-- A query world whose generation call always answers "ok". -/
def qw0 : QueryWorld :=
  QueryWorld.mk (fun _ _ => Except.ok "ok")

/-! Helper lemmas. -/

/-- The question handler never writes to the session state. -/
theorem queryHandler_fst (s : SessionState) (q : String) (w : QueryWorld) :
    (queryHandler s q w).1 = s := by
  unfold queryHandler
  cases s.qa_chain with
  | none => rfl
  | some b => cases hinv : b.invokeChain w q <;> simp [hinv]

/-- The success flag of `ingest_pdf` equals whether the returned store is
non-None. -/
theorem ingest_pdf_success_isSome (w : IngestWorld) :
    (ingest_pdf w).1 = (ingest_pdf w).2.2.isSome := by
  unfold ingest_pdf load_and_split_pdf create_vectorstore
  cases w.pdfExists <;> cases w.pages <;> cases w.embedErr <;> simp

/-- When the handler renders an answer, the displayed source documents are
the stored chain's retriever output on the question. -/
theorem queryHandler_answered (s : SessionState) (b : QABundle) (q : String)
    (w : QueryWorld) (ans : String) (docs : List Chunk)
    (hb : s.qa_chain = some b)
    (hout : (queryHandler s q w).2 = QueryOutput.answered ans docs) :
    docs = b.retriever.invoke q := by
  unfold queryHandler at hout
  simp only [hb] at hout
  cases hinv : b.invokeChain w q with
  | error e => simp [hinv] at hout
  | ok a =>
    simp only [hinv, QueryOutput.answered.injEq] at hout
    exact hout.2.symm

/-- Reachability invariant: every stored qa_chain is the one built from the
currently stored vector store, with its retriever's k fixed at 3. -/
theorem reachable_chain_invariant (s : SessionState) (hs : Reachable s) :
    ∀ b : QABundle, s.qa_chain = some b →
      s.vectorstore = some b.retriever.vs ∧ b.retriever.k = 3 := by
  induction hs with
  | init => intro b hb; cases hb
  | next s e _ ih =>
    intro b hb
    cases e with
    | setModelName m => exact ih b hb
    | processPDF w =>
      rcases hw : ingest_pdf w with ⟨succ, msg, vs⟩
      cases succ with
      | false =>
        have hstep : step s (Event.processPDF w) = s := by
          simp [step, hw]
        rw [hstep] at hb ⊢
        exact ih b hb
      | true =>
        have hsome : vs.isSome = true := by
          have := ingest_pdf_success_isSome w
          rw [hw] at this
          exact this.symm
        obtain ⟨v, hv⟩ := Option.isSome_iff_exists.mp hsome
        subst hv
        have hstep : step s (Event.processPDF w) =
            SessionState.mk (some v)
              (some (initialize_qa_chain v s.modelName)) s.modelName := by
          simp [step, hw]
        rw [hstep] at hb ⊢
        simp only [Option.some.injEq] at hb
        subst hb
        exact ⟨rfl, rfl⟩
    | ask q w =>
      have hstep : step s (Event.ask q w) = s := queryHandler_fst s q w
      rw [hstep] at hb ⊢
      exact ih b hb

/-- Two chunk-size windows of one text taken 224 characters apart agree on
their shared part: the trailing `min 32 |c'|` characters of the first window
are the leading `min 32 |c'|` characters of the second. -/
theorem window_overlap (t : List Char) (a : Nat) (h : a + 224 < t.length) :
    ((t.drop a).take 256).drop
        (((t.drop a).take 256).length -
          min 32 ((t.drop (a + 224)).take 256).length) =
      ((t.drop (a + 224)).take 256).take
        (min 32 ((t.drop (a + 224)).take 256).length) := by
  have hlen : ((t.drop a).take 256).length = min 256 (t.length - a) := by
    simp
  have hlen' : ((t.drop (a + 224)).take 256).length =
      min 256 (t.length - (a + 224)) := by
    simp
  rcases Nat.lt_or_ge t.length (a + 256) with hB | hA
  · -- chunk at `a` is cut short by the end of the page
    have hm : min 32 ((t.drop (a + 224)).take 256).length =
        t.length - (a + 224) := by
      rw [hlen']; omega
    have hd : ((t.drop a).take 256).length - (t.length - (a + 224)) = 224 := by
      rw [hlen]; omega
    rw [hm, hd, List.drop_take, List.drop_drop, List.take_take]
    have hshort : (t.drop (a + 224)).length = t.length - (a + 224) := by simp
    have hle : (t.drop (a + 224)).length ≤ 256 - 224 := by rw [hshort]; omega
    rw [List.take_of_length_le hle]
    have hmin : min (t.length - (a + 224)) 256 = (t.drop (a + 224)).length := by
      rw [hshort]; omega
    rw [hmin, List.take_length]
  · -- chunk at `a` is the full 256 characters
    have hm : min 32 ((t.drop (a + 224)).take 256).length = 32 := by
      rw [hlen']; omega
    have hd : ((t.drop a).take 256).length - 32 = 224 := by
      rw [hlen]; omega
    rw [hm, hd, List.drop_take, List.drop_drop, List.take_take]
    norm_num

/-! Claim theorems. -/

/-- Claim C1: whenever no file exists at the configured PDF path, `ingest_pdf`
returns a failure result carrying the "not found" message and a None index,
and never constructs a vector store. -/
theorem ingest_missing_file_fails (w : IngestWorld) (h : w.pdfExists = false) :
    ingest_pdf w =
      (false, "❌ " ++ PDF_PATH ++ " not found. Please upload or download a PDF first.",
        none) := by
  simp [ingest_pdf, h]

/-- Witness for C1 at a concrete world with no file. -/
theorem ingest_missing_file_fails_witness :
    ingest_pdf w_missing =
      (false, "❌ " ++ PDF_PATH ++ " not found. Please upload or download a PDF first.",
        none) :=
  ingest_missing_file_fails w_missing rfl

/-- Claim C2: every exception raised by loading, splitting or embedding is
caught: `ingest_pdf` returns failure with a human-readable message and a None
index, and the Process-PDF handler leaves the session state (stored index and
pipeline) unchanged. -/
theorem ingest_exception_caught_state_unchanged (s : SessionState)
    (w : IngestWorld) (e : String) (hex : w.pdfExists = true)
    (hraise : w.pages = Except.error e ∨
      (w.embedErr = some e ∧ ∃ pgs, w.pages = Except.ok pgs)) :
    ingest_pdf w = (false, "❌ Error: " ++ e, none) ∧
      step s (Event.processPDF w) = s := by
  have hing : ingest_pdf w = (false, "❌ Error: " ++ e, none) := by
    unfold ingest_pdf
    rw [hex]
    rcases hraise with hp | ⟨he, pgs, hp⟩
    · simp [load_and_split_pdf, hp]
    · simp [load_and_split_pdf, hp, create_vectorstore, he]
  refine ⟨hing, ?_⟩
  simp [step, hing]

/-- Witness for C2 at a concrete world whose loader raises. -/
theorem ingest_exception_caught_state_unchanged_witness :
    ingest_pdf w_loadfail = (false, "❌ Error: " ++ "boom", none) ∧
      step initState (Event.processPDF w_loadfail) = initState :=
  ingest_exception_caught_state_unchanged initState w_loadfail "boom" rfl
    (Or.inl rfl)

/-- Claim C10: the success flag of `ingest_pdf` is true exactly when the
returned vector store is non-None. -/
theorem ingest_success_iff_index_some (w : IngestWorld) :
    (ingest_pdf w).1 = true ↔ (ingest_pdf w).2.2.isSome = true := by
  rw [ingest_pdf_success_isSome]

/-- Claim C3: splitting a 600-character page with chunk size 256 and overlap
32 yields chunks starting at offsets 0, 224 and 448 of the page text. -/
theorem split_600_offsets (text : List Char) (h : text.length = 600) :
    chunkStarts text.length = [0, 224, 448] ∧
      splitPage text =
        [text.take 256, (text.drop 224).take 256, (text.drop 448).take 256] := by
  have hcs : chunkStarts 600 = [0, 224, 448] := by decide
  constructor
  · rw [h, hcs]
  · unfold splitPage
    rw [h, hcs]
    simp [CHUNK_SIZE]

set_option maxRecDepth 4000 in
/-- Witness for C3 at a concrete 600-character page. -/
theorem split_600_offsets_witness :
    chunkStarts (List.replicate 600 'a').length = [0, 224, 448] ∧
      splitPage (List.replicate 600 'a') =
        [(List.replicate 600 'a').take 256,
          ((List.replicate 600 'a').drop 224).take 256,
          ((List.replicate 600 'a').drop 448).take 256] :=
  split_600_offsets (List.replicate 600 'a') (by simp)

/-- Claim C4: for adjacent chunks of one page, the trailing `CHUNK_OVERLAP`
characters of chunk i are the leading characters of chunk i+1, up to page
boundaries (when the page ends inside the shared window, the whole of chunk
i+1 is a suffix of chunk i, so the shared part is `min CHUNK_OVERLAP`
chunk-i+1's length). -/
theorem chunk_overlap_invariant (text c c' : List Char)
    (h : (c, c') ∈ (splitPage text).zip (splitPage text).tail) :
    c.drop (c.length - min CHUNK_OVERLAP c'.length) =
      c'.take (min CHUNK_OVERLAP c'.length) := by
  have hst : stride = 224 := rfl
  have hlen : (splitPage text).length = (text.length + 223) / 224 := by
    simp [splitPage, chunkStarts, hst]
  rw [List.mem_iff_getElem] at h
  obtain ⟨i, hi, hget⟩ := h
  have hizip := hi
  rw [List.length_zip, List.length_tail, hlen] at hizip
  rw [List.getElem_zip, Prod.mk.injEq] at hget
  obtain ⟨hc, hc'⟩ := hget
  rw [List.getElem_tail] at hc'
  subst hc hc'
  have harith : i * 224 + 224 = (i + 1) * 224 := by ring
  have hb : i * 224 + 224 < text.length := by
    rw [harith]
    omega
  have key := window_overlap text (i * 224) hb
  simp only [splitPage, chunkStarts, hst, CHUNK_SIZE, List.getElem_map,
    List.getElem_range]
  rw [show CHUNK_OVERLAP = 32 from rfl, ← harith]
  exact key

set_option maxRecDepth 4000 in
/-- Witness for C4 at a concrete 225-character page, whose two chunks share
only the single character the page boundary leaves. -/
theorem chunk_overlap_invariant_witness :
    (List.replicate 225 'a').drop
        ((List.replicate 225 'a').length -
          min CHUNK_OVERLAP (['a'] : List Char).length) =
      (['a'] : List Char).take (min CHUNK_OVERLAP (['a'] : List Char).length) :=
  chunk_overlap_invariant (List.replicate 225 'a') (List.replicate 225 'a')
    ['a'] (by decide)

/-- Claim C7: in every reachable session state a stored query pipeline was
built from the currently stored vector index, and every successful ingest
replaces the index and the pipeline together (the new pipeline built from
the new index and the current model-name field). -/
theorem pipeline_paired_with_index (s : SessionState) (b : QABundle)
    (w : IngestWorld) (v : VectorStore) (hs : Reachable s)
    (hb : s.qa_chain = some b) (hsucc : (ingest_pdf w).1 = true)
    (hv : (ingest_pdf w).2.2 = some v) :
    s.vectorstore = some b.retriever.vs ∧
      (step s (Event.processPDF w)).vectorstore = some v ∧
      (step s (Event.processPDF w)).qa_chain =
        some (initialize_qa_chain v s.modelName) := by
  have hpair := (reachable_chain_invariant s hs b hb).1
  rcases hq : ingest_pdf w with ⟨succ, msg, vs⟩
  rw [hq] at hsucc hv
  dsimp only at hsucc hv
  subst hsucc
  subst hv
  have hstep : step s (Event.processPDF w) =
      SessionState.mk (some v) (some (initialize_qa_chain v s.modelName))
        s.modelName := by
    simp [step, hq]
  rw [hstep]
  exact ⟨hpair, rfl, rfl⟩

/-- Witness for C7 at the state after one successful ingest, re-ingesting
with the same succeeding world. -/
theorem pipeline_paired_with_index_witness :
    s0.vectorstore = some (initialize_qa_chain vs0 "llama3.2").retriever.vs ∧
      (step s0 (Event.processPDF w_ok)).vectorstore = some vs0 ∧
      (step s0 (Event.processPDF w_ok)).qa_chain =
        some (initialize_qa_chain vs0 s0.modelName) :=
  pipeline_paired_with_index s0 (initialize_qa_chain vs0 "llama3.2") w_ok vs0
    (Reachable.next initState (Event.processPDF w_ok) Reachable.init) rfl rfl rfl

/-- Claim C8: a query from a valid Indexed state leaves the session state
(the stored vector index and query pipeline) unchanged, whether the query
succeeds or fails. -/
theorem query_preserves_state (s : SessionState) (q : String) (w : QueryWorld)
    (vs : VectorStore) (b : QABundle) (_h1 : s.vectorstore = some vs)
    (_h2 : s.qa_chain = some b) :
    (queryHandler s q w).1 = s ∧ step s (Event.ask q w) = s :=
  ⟨queryHandler_fst s q w, queryHandler_fst s q w⟩

/-- Witness for C8 at the state after one successful ingest. -/
theorem query_preserves_state_witness :
    (queryHandler s0 "What is this document about?" qw0).1 = s0 ∧
      step s0 (Event.ask "What is this document about?" qw0) = s0 :=
  query_preserves_state s0 "What is this document about?" qw0 vs0
    (initialize_qa_chain vs0 "llama3.2") rfl rfl

/-- Claim C6: with the index unchanged, querying twice with the same question
returns the same result (the retrieval is a pure function of the index and
the question), and the chunks displayed as sources are exactly the chunks
the chain used as generation context for that question. -/
theorem query_deterministic_sources_eq_context (s : SessionState)
    (b : QABundle) (q : String) (w : QueryWorld) (ans : String)
    (docs : List Chunk) (hb : s.qa_chain = some b)
    (hout : (queryHandler s q w).2 = QueryOutput.answered ans docs) :
    (queryHandler ((queryHandler s q w).1) q w).2 = (queryHandler s q w).2 ∧
      docs = b.contextDocs q := by
  refine ⟨by rw [queryHandler_fst], ?_⟩
  exact queryHandler_answered s b q w ans docs hb hout

/-- Witness for C6 at the state after one successful ingest, with a
generation call that answers "ok". -/
theorem query_deterministic_sources_eq_context_witness :
    (queryHandler ((queryHandler s0 "hi" qw0).1) "hi" qw0).2 =
        (queryHandler s0 "hi" qw0).2 ∧
      ([] : List Chunk) = (initialize_qa_chain vs0 "llama3.2").contextDocs "hi" :=
  query_deterministic_sources_eq_context s0 (initialize_qa_chain vs0 "llama3.2")
    "hi" qw0 "ok" [] rfl rfl

/-- Claim C5: the retriever of every pipeline stored in a reachable state has
k fixed at 3, so the source-chunk list displayed for a query has at most 3
elements. -/
theorem retriever_k_three_sources_le_three (s : SessionState) (b : QABundle)
    (q : String) (w : QueryWorld) (ans : String) (docs : List Chunk)
    (hs : Reachable s) (hb : s.qa_chain = some b)
    (hout : (queryHandler s q w).2 = QueryOutput.answered ans docs) :
    b.retriever.k = 3 ∧ docs.length ≤ 3 := by
  obtain ⟨-, hk⟩ := reachable_chain_invariant s hs b hb
  refine ⟨hk, ?_⟩
  rw [queryHandler_answered s b q w ans docs hb hout]
  unfold Retriever.invoke
  rw [hk]
  exact List.length_take_le 3 _

/-- Witness for C5 at the state after one successful ingest. -/
theorem retriever_k_three_sources_le_three_witness :
    (initialize_qa_chain vs0 "llama3.2").retriever.k = 3 ∧
      ([] : List Chunk).length ≤ 3 :=
  retriever_k_three_sources_le_three s0 (initialize_qa_chain vs0 "llama3.2")
    "hi" qw0 "ok" []
    (Reachable.next initState (Event.processPDF w_ok) Reachable.init) rfl rfl

/-- Claim C9: editing the model-name text field without clicking Process PDF
changes only the field: the stored query pipeline (and index) are unchanged,
and a subsequent query behaves exactly as before the edit, silently reusing
the generation model name recorded in the stale pipeline. -/
theorem model_name_change_stale_pipeline (s : SessionState) (m q : String)
    (w : QueryWorld) :
    (step s (Event.setModelName m)).modelName = m ∧
      (step s (Event.setModelName m)).qa_chain = s.qa_chain ∧
      (step s (Event.setModelName m)).vectorstore = s.vectorstore ∧
      (queryHandler (step s (Event.setModelName m)) q w).2 =
        (queryHandler s q w).2 := by
  refine ⟨rfl, rfl, rfl, ?_⟩
  show (queryHandler (SessionState.mk s.vectorstore s.qa_chain m) q w).2 =
    (queryHandler s q w).2
  unfold queryHandler
  dsimp only
  cases hq : s.qa_chain with
  | none => rfl
  | some b => cases hinv : b.invokeChain w q <;> simp [hinv]

end RAG
